import Mathlib

/-!
Shallow embedding of `src/sqlx-cli/src/database.rs`: the database lifecycle
orchestrator (`create`, `drop`, `reset`, `setup`) and the drop-confirmation
gate `ask_to_continue_drop` with its `RestoreCursorGuard`.

The external collaborators (the `Any` driver capabilities, the migration
engine `migrate::run`, the retry wrapper `crate::retry_connect_errors`, and
the `dialoguer` confirmation prompt) are modelled as fault oracles over an
explicit state carrying the database-existence flag and an ordered trace of
the capability invocations the code performs.
-/

namespace DatabaseCli

/-- Failure kind a driver existence check can report: a connection-transient
failure (retried by the retry wrapper) or any other driver failure
(surfaced immediately). -/
inductive FailKind
  | transient
  | driverErr
deriving DecidableEq

/-- Observable capability invocations, in program order: one existence-check
attempt, one create, one plain drop, one force drop, or one invocation of
the migration engine together with the run options it was passed. -/
inductive Ev
  | evExists
  | evCreate
  | evDrop
  | evForceDrop
  | evMigrate (dry_run : Bool) (ignore_missing : Bool) (fake : Bool) (target_version : Option Nat)
deriving DecidableEq

/-- Error taxonomy of the orchestrator: exhausted connection retries, a
driver error, a migration-engine error, or a missing database URL
(`ConnectOpts::required_db_url` failing). -/
inductive Err
  | connectionError
  | driverError
  | migrationError
  | urlError
deriving DecidableEq

/-- Result of an operation: normal return, an error propagated with `?`, or
a panic unwinding out of the function. -/
inductive Res (α : Type)
  | ok (a : α)
  | err (e : Err)
  | panicked
deriving DecidableEq

/-- World state threaded through the orchestrator: whether the database
currently exists, and the trace of capability invocations so far. -/
structure St where
  dbExists : Bool
  trace : List Ev
deriving DecidableEq

/-- Fault oracle for the external collaborators: for the n-th invocation of
each capability, whether (and how) it fails. A successful existence check
reports the current `dbExists`; a successful create/drop updates it. -/
structure Oracle where
  existsFault : Nat → Option FailKind
  createFault : Nat → Bool
  dropFault : Nat → Bool
  forceDropFault : Nat → Bool
  migrateFault : Nat → Bool

/-- `ConnectOpts`: the only part this module reads is the database URL,
which may be absent (then `required_db_url` errors). -/
structure ConnectOpts where
  database_url : Option String

/-- `ConnectOpts::required_db_url`: the URL, or an error when it is unset. -/
def required_db_url (c : ConnectOpts) : Res String :=
  match c.database_url with
  | some u => Res.ok u
  | none => Res.err Err.urlError

/-- Recognizer for existence-check events, used to count invocations. -/
def isExistsEv : Ev → Bool
  | Ev.evExists => true
  | _ => false

/-- Recognizer for create events. -/
def isCreateEv : Ev → Bool
  | Ev.evCreate => true
  | _ => false

/-- Recognizer for plain-drop events. -/
def isDropEv : Ev → Bool
  | Ev.evDrop => true
  | _ => false

/-- Recognizer for force-drop events. -/
def isForceDropEv : Ev → Bool
  | Ev.evForceDrop => true
  | _ => false

/-- Recognizer for migration-engine events. -/
def isMigrateEv : Ev → Bool
  | Ev.evMigrate _ _ _ _ => true
  | _ => false

/-- Outcome of one driver existence-check attempt. -/
inductive OpResult (α : Type)
  | ok (a : α)
  | transient
  | fatalErr
deriving DecidableEq

/-- Driver capability `Any::database_exists`: records one `evExists`
invocation; fails as the oracle dictates, otherwise reports `dbExists`. -/
def driverExists (o : Oracle) (st : St) : OpResult Bool × St :=
  let n := st.trace.countP isExistsEv
  let st1 : St := { st with trace := st.trace ++ [Ev.evExists] }
  match o.existsFault n with
  | none => (OpResult.ok st.dbExists, st1)
  | some FailKind.transient => (OpResult.transient, st1)
  | some FailKind.driverErr => (OpResult.fatalErr, st1)

/-- Driver capability `Any::create_database`: records one `evCreate`
invocation; on success the database exists afterwards. -/
def driverCreate (o : Oracle) (st : St) : Res Unit × St :=
  let n := st.trace.countP isCreateEv
  let tr := st.trace ++ [Ev.evCreate]
  if o.createFault n then (Res.err Err.driverError, { st with trace := tr })
  else (Res.ok (), { dbExists := true, trace := tr })

/-- Driver capability `Any::drop_database`: records one `evDrop` invocation;
on success the database no longer exists. -/
def driverDrop (o : Oracle) (st : St) : Res Unit × St :=
  let n := st.trace.countP isDropEv
  let tr := st.trace ++ [Ev.evDrop]
  if o.dropFault n then (Res.err Err.driverError, { st with trace := tr })
  else (Res.ok (), { dbExists := false, trace := tr })

/-- Driver capability `Any::force_drop_database`: records one `evForceDrop`
invocation; on success the database no longer exists. -/
def driverForceDrop (o : Oracle) (st : St) : Res Unit × St :=
  let n := st.trace.countP isForceDropEv
  let tr := st.trace ++ [Ev.evForceDrop]
  if o.forceDropFault n then (Res.err Err.driverError, { st with trace := tr })
  else (Res.ok (), { dbExists := false, trace := tr })

/-- Modelled from the spec: `migrate::run`, the external migration engine
(its source is not under `src/`). Per the spec interface it receives the
migration source, the target, `dry_run`, `ignore_missing`, `fake`, and an
optional target version; it records one `evMigrate` invocation carrying
those run options, and fails opaquely as the oracle dictates. -/
def migrateRun (o : Oracle) (migration_source : String) (c : ConnectOpts)
    (dry_run : Bool) (ignore_missing : Bool) (fake : Bool)
    (target_version : Option Nat) (st : St) : Res Unit × St :=
  let n := st.trace.countP isMigrateEv
  let tr := st.trace ++ [Ev.evMigrate dry_run ignore_missing fake target_version]
  if o.migrateFault n then (Res.err Err.migrationError, { st with trace := tr })
  else (Res.ok (), { st with trace := tr })

/-- Modelled from the spec: `crate::retry_connect_errors` (its source is not
under `src/`). It invokes the supplied idempotent operation — here always
the driver existence check — and retries it only on connection-transient
failures, up to a bounded attempt ceiling (`fuel` retries after the first
attempt); any other failure is surfaced immediately without retry. -/
def retry_connect_errors (o : Oracle) : Nat → St → Res Bool × St
  | 0, st =>
    match driverExists o st with
    | (OpResult.ok b, st1) => (Res.ok b, st1)
    | (OpResult.fatalErr, st1) => (Res.err Err.driverError, st1)
    | (OpResult.transient, st1) => (Res.err Err.connectionError, st1)
  | Nat.succ f, st =>
    match driverExists o st with
    | (OpResult.ok b, st1) => (Res.ok b, st1)
    | (OpResult.fatalErr, st1) => (Res.err Err.driverError, st1)
    | (OpResult.transient, st1) => retry_connect_errors o f st1

/-- `io::ErrorKind` as the prompt-error classifier: the code distinguishes
only `Interrupted` from every other kind (handled uniformly by its
catch-all match arm), so the model keeps exactly that distinction. -/
inductive ErrorKind
  | interrupted
  | otherKind
deriving DecidableEq

/-- `dialoguer::Error`: an I/O error with a kind. -/
inductive DialoguerError
  | ioErr (kind : ErrorKind)
deriving DecidableEq

/-- Result of the blocking `Confirm::interact` call: a decision, or a
`dialoguer` error. -/
inductive ConfirmOutcome
  | ok (decision : Bool)
  | err (e : DialoguerError)
deriving DecidableEq

/-- Outcome of awaiting `task::spawn_blocking`: the prompt task joined with
its result, or it failed abruptly (panic/cancellation), in which case the
`.expect` call panics in `ask_to_continue_drop` itself. -/
inductive JoinResult
  | joined (r : ConfirmOutcome)
  | panicked
deriving DecidableEq

/-- Terminal/control events of one prompt session, in order: the
`RestoreCursorGuard` firing (`Term::stderr().show_cursor()` from its `Drop`
while still armed), the prompt library's own cursor restoration on a
normally completed prompt, or a panic being raised. -/
inductive GEv
  | guardRestore
  | libRestore
  | panicked
deriving DecidableEq

/-- `ask_to_continue_drop`, as a function of how the prompt session ends.
Returns the decision the function returns (`none` when it panics instead)
and the ordered terminal/control events:
* task joined with `Ok(decision)`: the guard is disarmed and never fires;
  cursor restoration was already done by the prompt library (modelled from
  the spec: on a normal answer restoration is the prompt library's own
  responsibility);
* task joined with an `Interrupted` I/O error: the guard is dropped armed
  (restoring the cursor) and `false` is returned;
* task joined with any other error: the guard is dropped armed (restoring
  the cursor) and then the function panics;
* the task itself failed: `.expect` panics, and unwinding drops the armed
  guard, restoring the cursor. -/
def ask_to_continue_drop (join : JoinResult) : Option Bool × List GEv :=
  match join with
  | JoinResult.joined (ConfirmOutcome.ok decision) => (some decision, [GEv.libRestore])
  | JoinResult.joined (ConfirmOutcome.err (DialoguerError.ioErr ErrorKind.interrupted)) =>
      (some false, [GEv.guardRestore])
  | JoinResult.joined (ConfirmOutcome.err (DialoguerError.ioErr ErrorKind.otherKind)) =>
      (none, [GEv.guardRestore, GEv.panicked])
  | JoinResult.panicked => (none, [GEv.panicked, GEv.guardRestore])

/-- The terminal/control events of one prompt session. -/
def gateEvents (j : JoinResult) : List GEv := (ask_to_continue_drop j).2

/-- The decision `ask_to_continue_drop` returns (`none` when it panics). -/
def gateAnswerOf (j : JoinResult) : Option Bool := (ask_to_continue_drop j).1

/-- Whether the prompt session ended with a normal answer from the user. -/
def normalAnswer : JoinResult → Bool
  | JoinResult.joined (ConfirmOutcome.ok _) => true
  | _ => false

/-- `database::create`: existence check through the retry wrapper; when the
database is absent, resolve the URL and invoke the driver's create
capability; when present, succeed without further effect. -/
def create (o : Oracle) (c : ConnectOpts) (fuel : Nat) (st : St) : Res Unit × St :=
  match retry_connect_errors o fuel st with
  | (Res.ok ex, st1) =>
    if !ex then
      match required_db_url c with
      | Res.ok _ => driverCreate o st1
      | Res.err e => (Res.err e, st1)
      | Res.panicked => (Res.panicked, st1)
    else (Res.ok (), st1)
  | (Res.err e, st1) => (Res.err e, st1)
  | (Res.panicked, st1) => (Res.panicked, st1)

/-- The part of `database::drop` past the confirmation gate: existence check
through the retry wrapper; when present, invoke force drop or plain drop
according to `force`; when absent, succeed without further effect. -/
def dropBody (o : Oracle) (c : ConnectOpts) (force : Bool) (fuel : Nat) (st : St) :
    Res Unit × St :=
  match retry_connect_errors o fuel st with
  | (Res.ok ex, st1) =>
    if ex then
      if force then
        match required_db_url c with
        | Res.ok _ => driverForceDrop o st1
        | Res.err e => (Res.err e, st1)
        | Res.panicked => (Res.panicked, st1)
      else
        match required_db_url c with
        | Res.ok _ => driverDrop o st1
        | Res.err e => (Res.err e, st1)
        | Res.panicked => (Res.panicked, st1)
    else (Res.ok (), st1)
  | (Res.err e, st1) => (Res.err e, st1)
  | (Res.panicked, st1) => (Res.panicked, st1)

/-- `database::drop`: when `confirm` is set, resolve the URL (its failure
propagates before any prompt) and ask the confirmation gate; a `false`
answer returns success immediately, a gate panic propagates; otherwise the
drop body runs. -/
def drop (o : Oracle) (join : JoinResult) (c : ConnectOpts) (confirm : Bool)
    (force : Bool) (fuel : Nat) (st : St) : Res Unit × St :=
  if confirm then
    match required_db_url c with
    | Res.ok _ =>
      match (ask_to_continue_drop join).1 with
      | some true => dropBody o c force fuel st
      | some false => (Res.ok (), st)
      | none => (Res.panicked, st)
    | Res.err e => (Res.err e, st)
    | Res.panicked => (Res.panicked, st)
  else dropBody o c force fuel st

/-- `database::setup`: `create`, then on success the migration engine with
`dry_run = false`, `ignore_missing = false`, `fake = false` and no target
version; a `create` failure aborts before the migration engine runs. -/
def setup (o : Oracle) (migration_source : String) (c : ConnectOpts) (fuel : Nat)
    (st : St) : Res Unit × St :=
  match create o c fuel st with
  | (Res.ok _, st1) => migrateRun o migration_source c false false false none st1
  | (Res.err e, st1) => (Res.err e, st1)
  | (Res.panicked, st1) => (Res.panicked, st1)

/-- `database::reset`: `drop`, then on success (including a skipped drop)
`setup`; a drop failure propagates without running `setup`. -/
def reset (o : Oracle) (join : JoinResult) (migration_source : String)
    (c : ConnectOpts) (confirm : Bool) (force : Bool) (fuel : Nat) (st : St) :
    Res Unit × St :=
  match drop o join c confirm force fuel st with
  | (Res.ok _, st1) => setup o migration_source c fuel st1
  | (Res.err e, st1) => (Res.err e, st1)
  | (Res.panicked, st1) => (Res.panicked, st1)

/-- Oracle with no injected faults: every capability invocation succeeds. -/
def noFaults : Oracle :=
  { existsFault := fun _ => none
    createFault := fun _ => false
    dropFault := fun _ => false
    forceDropFault := fun _ => false
    migrateFault := fun _ => false }

/-- Oracle whose create capability fails on every invocation. -/
def createAlwaysFails : Oracle := { noFaults with createFault := fun _ => true }

/-- Oracle whose plain-drop capability fails on every invocation. -/
def dropAlwaysFails : Oracle := { noFaults with dropFault := fun _ => true }

/-- Oracle whose force-drop capability fails on every invocation. -/
def forceDropAlwaysFails : Oracle := { noFaults with forceDropFault := fun _ => true }

/-- Oracle whose migration engine fails on every invocation. -/
def migrateAlwaysFails : Oracle := { noFaults with migrateFault := fun _ => true }

/-- Oracle whose existence check fails with a non-transient driver error. -/
def existsAlwaysFatal : Oracle :=
  { noFaults with existsFault := fun _ => some FailKind.driverErr }

/-- Initial state with an empty trace and the given existence flag. -/
def st0 (ex : Bool) : St := { dbExists := ex, trace := [] }

end DatabaseCli

namespace DatabaseCli

/-- Claim C1: for every way a prompt session of `ask_to_continue_drop` can
end, the cursor is restored to visible exactly once: on a normal answer the
guard never fires and restoration is the prompt library's (count 1 from
`libRestore`); on interruption, fatal prompt error, or abrupt task failure
the guard fires exactly once and the library does not restore. -/
theorem gate_cursor_restored_exactly_once (j : JoinResult) :
    (gateEvents j).count GEv.guardRestore + (gateEvents j).count GEv.libRestore = 1 ∧
    (gateEvents j).count GEv.guardRestore = (if normalAnswer j then 0 else 1) ∧
    (gateEvents j).count GEv.libRestore = (if normalAnswer j then 1 else 0) := by
  cases j with
  | panicked => exact ⟨rfl, rfl, rfl⟩
  | joined r =>
    cases r with
    | ok decision => cases decision <;> exact ⟨rfl, rfl, rfl⟩
    | err e =>
      cases e with
      | ioErr k => cases k <;> exact ⟨rfl, rfl, rfl⟩

/-- Claim C2: when the prompt is interrupted while waiting for input, the
gate answers `some false` (a decline, not an error), so `drop` with
`confirm = true` returns success untouched — and the guard (not the prompt
library) restored the cursor in that session. -/
theorem drop_interrupted_prompt_declines_and_restores_cursor (o : Oracle)
    (url : String) (force : Bool) (fuel : Nat) (st : St) :
    drop o (JoinResult.joined (ConfirmOutcome.err (DialoguerError.ioErr ErrorKind.interrupted)))
        { database_url := some url } true force fuel st = (Res.ok (), st) ∧
    gateAnswerOf (JoinResult.joined (ConfirmOutcome.err (DialoguerError.ioErr ErrorKind.interrupted)))
        = some false ∧
    gateEvents (JoinResult.joined (ConfirmOutcome.err (DialoguerError.ioErr ErrorKind.interrupted)))
        = [GEv.guardRestore] :=
  ⟨rfl, rfl, rfl⟩

/-- Claim C3: when the user declines the confirmation, `drop` with
`confirm = true` returns success with the state unchanged — in particular
no `evDrop` or `evForceDrop` invocation is recorded. -/
theorem drop_declined_no_drop_invocation (o : Oracle) (url : String)
    (force : Bool) (fuel : Nat) (st : St) :
    drop o (JoinResult.joined (ConfirmOutcome.ok false)) { database_url := some url }
        true force fuel st = (Res.ok (), st) ∧
    (drop o (JoinResult.joined (ConfirmOutcome.ok false)) { database_url := some url }
        true force fuel st).2.trace = st.trace :=
  ⟨rfl, rfl⟩

/-- Claim C4: `create` first checks existence through the retry wrapper; on
an absent database it invokes the create capability (trace
`[evExists, evCreate]`), and a second `create` on the resulting state
succeeds with only a new existence check — one `evCreate` in total. On an
already-present database `create` succeeds with no create invocation. -/
theorem create_checks_existence_and_is_idempotent (url : String) (fuel : Nat) :
    create noFaults { database_url := some url } fuel (st0 false)
      = (Res.ok (), { dbExists := true, trace := [Ev.evExists, Ev.evCreate] }) ∧
    create noFaults { database_url := some url } fuel
        { dbExists := true, trace := [Ev.evExists, Ev.evCreate] }
      = (Res.ok (), { dbExists := true, trace := [Ev.evExists, Ev.evCreate, Ev.evExists] }) ∧
    create noFaults { database_url := some url } fuel (st0 true)
      = (Res.ok (), { dbExists := true, trace := [Ev.evExists] }) := by
  cases fuel <;> exact ⟨rfl, rfl, rfl⟩

/-- Claim C5: past the confirmation gate, `drop` checks existence; on an
absent database it succeeds invoking no drop capability, and on a present
database it invokes exactly the force-drop capability when `force = true`
and exactly the plain drop capability when `force = false`. -/
theorem drop_existence_gated_capability_selection (j : JoinResult) (url : String)
    (force : Bool) (fuel : Nat) :
    drop noFaults j { database_url := some url } false force fuel (st0 false)
      = (Res.ok (), { dbExists := false, trace := [Ev.evExists] }) ∧
    drop noFaults j { database_url := some url } false true fuel (st0 true)
      = (Res.ok (), { dbExists := false, trace := [Ev.evExists, Ev.evForceDrop] }) ∧
    drop noFaults j { database_url := some url } false false fuel (st0 true)
      = (Res.ok (), { dbExists := false, trace := [Ev.evExists, Ev.evDrop] }) := by
  cases fuel <;> cases force <;> exact ⟨rfl, rfl, rfl⟩

/-- Claim C6: `reset` is `drop` then `setup`. With an existing database,
`confirm = true`, `force = false` and a confirmed prompt, the observed
sequence is exactly exists, drop, exists, create, migrate. With a declined
confirmation, `reset` still equals `setup` on the untouched state. When
`drop` fails, its error propagates and `setup` never runs (no create or
migrate invocation in the trace). -/
theorem reset_is_drop_then_setup (url migration_source : String) (fuel : Nat) :
    reset noFaults (JoinResult.joined (ConfirmOutcome.ok true)) migration_source
        { database_url := some url } true false fuel (st0 true)
      = (Res.ok (), { dbExists := true,
                      trace := [Ev.evExists, Ev.evDrop, Ev.evExists, Ev.evCreate,
                                Ev.evMigrate false false false none] }) ∧
    reset noFaults (JoinResult.joined (ConfirmOutcome.ok false)) migration_source
        { database_url := some url } true false fuel (st0 true)
      = setup noFaults migration_source { database_url := some url } fuel (st0 true) ∧
    reset existsAlwaysFatal (JoinResult.joined (ConfirmOutcome.ok true)) migration_source
        { database_url := some url } true false fuel (st0 true)
      = (Res.err Err.driverError, { dbExists := true, trace := [Ev.evExists] }) := by
  cases fuel <;> exact ⟨rfl, rfl, rfl⟩

/-- Claim C7: `setup` runs `create` and then the migration engine with
`dry_run = false`, `ignore_missing = false`, `fake = false` and no target
version; a create failure is returned and the migration engine is never
invoked; a migration failure is surfaced unmodified. -/
theorem setup_creates_then_migrates_default_options (url migration_source : String)
    (fuel : Nat) :
    setup noFaults migration_source { database_url := some url } fuel (st0 false)
      = (Res.ok (), { dbExists := true,
                      trace := [Ev.evExists, Ev.evCreate,
                                Ev.evMigrate false false false none] }) ∧
    setup createAlwaysFails migration_source { database_url := some url } fuel (st0 false)
      = (Res.err Err.driverError, { dbExists := false, trace := [Ev.evExists, Ev.evCreate] }) ∧
    setup migrateAlwaysFails migration_source { database_url := some url } fuel (st0 false)
      = (Res.err Err.migrationError,
         { dbExists := true
           trace := [Ev.evExists, Ev.evCreate,
                     Ev.evMigrate false false false none] }) := by
  cases fuel <;> exact ⟨rfl, rfl, rfl⟩

/-- Claim C8: only the existence check goes through the retry wrapper. When
the create, plain-drop, or force-drop capability fails on every invocation,
`create`/`drop` surface the driver error after exactly one invocation of
that capability — the trace holds a single `evCreate`, `evDrop`, or
`evForceDrop` respectively, with no retry. -/
theorem retry_only_on_existence_check (j : JoinResult) (url : String) (fuel : Nat) :
    create createAlwaysFails { database_url := some url } fuel (st0 false)
      = (Res.err Err.driverError, { dbExists := false, trace := [Ev.evExists, Ev.evCreate] }) ∧
    drop dropAlwaysFails j { database_url := some url } false false fuel (st0 true)
      = (Res.err Err.driverError, { dbExists := true, trace := [Ev.evExists, Ev.evDrop] }) ∧
    drop forceDropAlwaysFails j { database_url := some url } false true fuel (st0 true)
      = (Res.err Err.driverError, { dbExists := true, trace := [Ev.evExists, Ev.evForceDrop] }) := by
  cases fuel <;> exact ⟨rfl, rfl, rfl⟩

/-- Claim C9: on a prompt failure other than an interruption, the gate
restores the cursor first (the guard fires) and then raises the failure —
the event order is guard restoration before the panic — and it never turns
the failure into a decision (the returned decision is `none`). -/
theorem gate_fatal_prompt_error_restores_then_raises :
    ask_to_continue_drop
        (JoinResult.joined (ConfirmOutcome.err (DialoguerError.ioErr ErrorKind.otherKind)))
      = (none, [GEv.guardRestore, GEv.panicked]) :=
  rfl

/-- Claim C10: whenever the gate answers `some false` (decline or
interruption), `drop` with `confirm = true` returns success with the state
completely unchanged: no existence check and no driver invocation at all. -/
theorem drop_unconfirmed_no_driver_interaction (o : Oracle) (j : JoinResult)
    (url : String) (force : Bool) (fuel : Nat) (st : St)
    (h : (ask_to_continue_drop j).1 = some false) :
    drop o j { database_url := some url } true force fuel st = (Res.ok (), st) := by
  simp [drop, required_db_url, h]

/-- Witness for C10 at a concrete interrupted prompt session. -/
theorem drop_unconfirmed_no_driver_interaction_witness :
    (ask_to_continue_drop
        (JoinResult.joined (ConfirmOutcome.err (DialoguerError.ioErr ErrorKind.interrupted)))).1
      = some false ∧
    drop noFaults
        (JoinResult.joined (ConfirmOutcome.err (DialoguerError.ioErr ErrorKind.interrupted)))
        { database_url := some "postgres" } true false 0 (st0 true)
      = (Res.ok (), st0 true) :=
  ⟨rfl, drop_unconfirmed_no_driver_interaction noFaults
    (JoinResult.joined (ConfirmOutcome.err (DialoguerError.ioErr ErrorKind.interrupted)))
    "postgres" false 0 (st0 true) rfl⟩

end DatabaseCli
